import Mathlib

/-!
Verification development for the traefik-to-AdGuardHome certificate sync
utility (src/sync.py).  The Python source is shallowly embedded: pure data
flow becomes Lean functions over explicit data, filesystem effects become a
trace of operations applied to an explicit filesystem state, and fatal
Python exceptions become an error type.  Parsing and serialization of the
two document formats are collaborators of the core (per the design), so the
embedded functions work on already-parsed trees and take the serializer as
an explicit function argument.
-/

set_option autoImplicit false

deriving instance DecidableEq for Except

namespace TraefikAdguardSync

/-- Python exceptions and exits that the script can raise.  An
uncaught exception and a diagnosed `sys.exit(msg)` both terminate the
process with a nonzero status, but only the latter is the diagnosed
failure the design calls `NotFoundError`. -/
inductive PyErr where
  /-- IndexError from indexing `[0]` into an empty list. -/
  | indexError
  /-- KeyError or TypeError from indexing a missing key or a non-mapping. -/
  | lookupError
  /-- binascii.Error, UnicodeDecodeError or ValueError from decoding. -/
  | decodeError
  /-- A `sys.exit(msg)` call: diagnosed fatal failure with a message. -/
  | systemExit (msg : String)
  deriving DecidableEq, Repr

/-- One entry of `acme_config["letsencrypt"]["Certificates"]`: a JSON
object with a nested domain object and base64 payload strings.
`domainMain` embeds `record["domain"]["main"]`. -/
structure CertRecord where
  domainMain : String
  certificate : String
  key : String
  deriving DecidableEq, Repr

/-- A parsed YAML/JSON document tree: the generic tree-of-values the
target configuration is loaded into by `yaml.load`.  Mappings (Python
dicts with unique keys and insertion order) are encoded as association
chains built from `mapNil` and `mapCons`, and sequences as chains built
from `seqNil` and `seqCons`; fusing the list spines into the tree type
keeps every operation structurally recursive and keeps equality of
trees kernel-decidable, which the change detector needs. -/
inductive Yaml where
  | str (s : String)
  | int (n : Int)
  | bool (b : Bool)
  | null
  | seqNil
  | seqCons (hd tl : Yaml)
  | mapNil
  | mapCons (k : String) (v tl : Yaml)
  deriving DecidableEq, Repr

namespace Yaml

/-- Lookup of `m[k]` on a parsed mapping: value of the first entry
holding the key.  Returns `none` when the key is missing or the value
is not a mapping (Python raises KeyError / TypeError there; callers
turn `none` into `PyErr.lookupError`). -/
def lookup : Yaml → String → Option Yaml
  | .mapCons k1 v tl, k => if k1 = k then some v else lookup tl k
  | _, _ => none

/-- Assignment `m[k] = v` on a parsed mapping: replace the value of the
first entry holding `k`, or append a fresh entry when the key is absent
(Python dict assignment).  On a non-mapping the tree is returned
unchanged: the embedded writer only assigns to keys it successfully
read from a mapping just before. -/
def setKey : Yaml → String → Yaml → Yaml
  | .mapNil, k, v => .mapCons k v .mapNil
  | .mapCons k1 v1 tl, k, v =>
    if k1 = k then .mapCons k v tl else .mapCons k1 v1 (setKey tl k v)
  | y, _, _ => y

end Yaml

/-! ## Base64 and UTF-8 decoding

`base64.b64decode(s)` (default `validate=False`) first encodes the str
as ASCII (ValueError on a non-ASCII character), discards characters
outside the standard alphabet and `=`, then decodes groups of four
symbols into three, two or one bytes, raising `binascii.Error` on bad
padding.  `.decode("utf-8")` then decodes the bytes strictly, raising
`UnicodeDecodeError` on an invalid sequence.  Both are embedded here as
executable functions on character and byte lists. -/

/-- Value of one character of the standard base64 alphabet. -/
def b64Val (c : Char) : Option Nat :=
  if 65 ≤ c.toNat ∧ c.toNat ≤ 90 then some (c.toNat - 65)
  else if 97 ≤ c.toNat ∧ c.toNat ≤ 122 then some (c.toNat - 97 + 26)
  else if 48 ≤ c.toNat ∧ c.toNat ≤ 57 then some (c.toNat - 48 + 52)
  else if c = '+' then some 62
  else if c = '/' then some 63
  else none

/-- Characters that survive the `validate=False` discard step. -/
def b64Relevant (c : Char) : Bool :=
  (b64Val c).isSome || c = '='

/-- Decode a run of already-filtered base64 symbols, four at a time.
A group ending in one or two `=` must be the final group; a leftover of
fewer than four symbols is a padding error. -/
def b64Groups : List Char → Option (List Nat)
  | [] => some []
  | a :: b :: c :: d :: rest =>
    match b64Val a, b64Val b with
    | some va, some vb =>
      match b64Val c, b64Val d with
      | some vc, some vd =>
        match b64Groups rest with
        | some bs =>
          some (
            (va * 4 + vb / 16) :: ((vb % 16) * 16 + vc / 4) ::
              ((vc % 4) * 64 + vd) :: bs)
        | none => none
      | some vc, none =>
        if d = '=' ∧ rest = [] then
          some [va * 4 + vb / 16, (vb % 16) * 16 + vc / 4]
        else none
      | none, none =>
        if c = '=' ∧ d = '=' ∧ rest = [] then
          some [va * 4 + vb / 16]
        else none
      | none, some _ => none
    | _, _ => none
  | _ => none

/-- The full `base64.b64decode` on a Python str: ASCII check, discard
of irrelevant characters, then group decoding. -/
def b64decode (s : String) : Option (List Nat) :=
  if s.data.all (fun c => c.toNat < 128) then
    b64Groups (s.data.filter b64Relevant)
  else none

/-- Strict UTF-8 decoding of a byte list into characters, as performed
by `bytes.decode("utf-8")`: continuation bytes must lie in the ranges
of the standard table, overlong encodings, surrogates and code points
above 0x10FFFF are rejected. -/
def utf8Decode : List Nat → Option (List Char)
  | [] => some []
  | b :: bs =>
    if b < 0x80 then
      match utf8Decode bs with
      | some cs => some (Char.ofNat b :: cs)
      | none => none
    else if 0xC2 ≤ b ∧ b ≤ 0xDF then
      match bs with
      | b1 :: bs1 =>
        if 0x80 ≤ b1 ∧ b1 ≤ 0xBF then
          match utf8Decode bs1 with
          | some cs => some (Char.ofNat ((b - 0xC0) * 64 + (b1 - 0x80)) :: cs)
          | none => none
        else none
      | [] => none
    else if 0xE0 ≤ b ∧ b ≤ 0xEF then
      match bs with
      | b1 :: b2 :: bs2 =>
        let lo1 : Nat := if b = 0xE0 then 0xA0 else 0x80
        let hi1 : Nat := if b = 0xED then 0x9F else 0xBF
        if (lo1 ≤ b1 ∧ b1 ≤ hi1) ∧ (0x80 ≤ b2 ∧ b2 ≤ 0xBF) then
          match utf8Decode bs2 with
          | some cs =>
            some (
              Char.ofNat ((b - 0xE0) * 4096 + (b1 - 0x80) * 64 + (b2 - 0x80))
                :: cs)
          | none => none
        else none
      | _ => none
    else if 0xF0 ≤ b ∧ b ≤ 0xF4 then
      match bs with
      | b1 :: b2 :: b3 :: bs3 =>
        let lo1 : Nat := if b = 0xF0 then 0x90 else 0x80
        let hi1 : Nat := if b = 0xF4 then 0x8F else 0xBF
        if (lo1 ≤ b1 ∧ b1 ≤ hi1) ∧ (0x80 ≤ b2 ∧ b2 ≤ 0xBF) ∧
            (0x80 ≤ b3 ∧ b3 ≤ 0xBF) then
          match utf8Decode bs3 with
          | some cs =>
            some (
              Char.ofNat
                  ((b - 0xF0) * 262144 + (b1 - 0x80) * 4096 +
                    (b2 - 0x80) * 64 + (b3 - 0x80))
                :: cs)
          | none => none
        else none
      | _ => none
    else none

/-- The composite `base64.b64decode(s).decode("utf-8")` used on the
certificate and key fields (src/sync.py lines 36-37). -/
def b64DecodeUtf8 (s : String) : Except PyErr String :=
  match b64decode s with
  | none => .error .decodeError
  | some bytes =>
    match utf8Decode bytes with
    | none => .error .decodeError
    | some cs => .ok (String.mk cs)

/-! ## Certificate Extractor (read_traefik, src/sync.py lines 19-38) -/

/-- Python whitespace set for `str.isspace` (ASCII portion; the exotic
Unicode space characters are irrelevant to domain selectors). -/
def isPySpace (c : Char) : Bool :=
  c = ' ' ∨ c = '\t' ∨ c = '\n' ∨ c = '\x0b' ∨ c = '\x0c' ∨ c = '\r'

/-- Python `s.isspace()`: nonempty and every character is whitespace. -/
def pyIsSpace (s : String) : Bool :=
  (s ≠ "") && s.data.all isPySpace

/-- The guard on src/sync.py line 25: `not domain_name or
domain_name.isspace()` — an absent (empty) or blank selector. -/
def blankSelector (domain_name : String) : Bool :=
  (domain_name = "") || pyIsSpace domain_name

/-- Decoding of the two payload fields of a selected record, in source
order: certificate first (line 36), then key (line 37); the first
failure aborts the run. -/
def decodeRecord (r : CertRecord) : Except PyErr (String × String) :=
  match b64DecodeUtf8 r.certificate with
  | .error e => .error e
  | .ok cert =>
    match b64DecodeUtf8 r.key with
    | .error e => .error e
    | .ok private_key => .ok (cert, private_key)

/-- Embedding of `read_traefik` (src/sync.py lines 19-38), applied to
the already-parsed `acme_config["letsencrypt"]["Certificates"]` list.
With a blank selector, line 26 indexes `[0]` into the list, which
raises IndexError on an empty list before the emptiness check on line
27 can run; a parsed record is a nonempty JSON object, hence truthy, so
the `sys.exit` on line 28 is unreachable for well-formed records.  With
a present selector, line 31 takes the first record whose
`domain.main` equals it, and line 33 exits with a diagnostic naming the
selector when none matches. -/
def read_traefik (certificates : List CertRecord) (domain_name : String) :
    Except PyErr (String × String) :=
  if blankSelector domain_name then
    match certificates with
    | [] => .error .indexError
    | r :: _ => decodeRecord r
  else
    match certificates.find? (fun d => d.domainMain = domain_name) with
    | none =>
      .error (.systemExit
        ("Could not find any certificate for domain " ++ domain_name))
    | some r => decodeRecord r

/-! ## Change Detector (has_changed, src/sync.py lines 40-49) -/

/-- Embedding of `has_changed`: returns Python `True` when the values
differ and falls through returning Python `None` when they are equal;
the `item` label and the first-line previews feed `logger.info` only.
The function is generic in the compared type because Python compares
whatever values the parsed documents hold. -/
def has_changed {α : Type} [DecidableEq α] (old new : α) (item : String) :
    Option Bool :=
  if old ≠ new then some true else none

/-- Python truthiness of the value `has_changed` returns: `True` is
truthy, `None` is falsy (src/sync.py lines 60 and 63 use it as an `if`
condition). -/
def pyTruthy : Option Bool → Bool
  | some b => b
  | none => false

/-! ## Filesystem effects

The destructive steps of the run are embedded as a trace of operations
on an explicit filesystem state holding the target file (content,
permission bits, owner) and the sibling backup file.  The trace records
exactly what src/sync.py performs when changes are detected:
`shutil.copy2` of the target to the backup path (line 89), `open(path,
"w")` which truncates the target (line 71), the streaming `yaml.dump`
into the open file (line 72), then `os.chmod` and `os.chown` (lines
80-81). -/

/-- One filesystem operation of the run, in the order the source
performs them. -/
inductive FsOp where
  /-- `shutil.copy2(adguardhome_path, backup_path)`: the backup file
  becomes a verbatim copy of the current target content. -/
  | copyToBackup
  /-- `open(adguardhome_path, "w")`: opening for writing truncates the
  target to empty before anything is written. -/
  | truncateTarget
  /-- `yaml.dump(adguardhome_config, f)`: the serialized document is
  written into the open (empty) target. -/
  | writeTarget (content : String)
  /-- `os.chmod(adguardhome_path, mode)`. -/
  | chmod (mode : Nat)
  /-- `os.chown(adguardhome_path, uid, gid)`. -/
  | chown (uid gid : Nat)
  deriving DecidableEq, Repr

/-- The filesystem state the run touches: the target configuration
file and its sibling backup (absent until first created). -/
structure FS where
  target : String
  mode : Nat
  uid : Nat
  gid : Nat
  backup : Option String
  deriving DecidableEq, Repr

/-- Effect of one successful operation on the filesystem state. -/
def applyOp (fs : FS) : FsOp → FS
  | .copyToBackup => { fs with backup := some fs.target }
  | .truncateTarget => { fs with target := "" }
  | .writeTarget content => { fs with target := content }
  | .chmod mode => { fs with mode := mode }
  | .chown uid gid => { fs with uid := uid, gid := gid }

/-- Execute a trace under a failure environment `fail` (does the OS
refuse this operation).  Returns the intermediate states after each
executed operation together with the success flag of the run: a
refused operation raises, aborting the rest of the trace with a fatal
error and performing no rollback, exactly as an uncaught Python
exception does. -/
def runOps (fail : FsOp → Bool) : FS → List FsOp → List FS × Bool
  | _, [] => ([], true)
  | fs, op :: ops =>
    if fail op then ([], false)
    else
      let fs1 := applyOp fs op
      let rest := runOps fail fs1 ops
      (fs1 :: rest.1, rest.2)

/-! ## Backup Manager and permission fixing (src/sync.py lines 78-90) -/

/-- Trace of `create_backup` (lines 84-90): a single copy of the
target to the sibling `<name>-backup<ext>` path, overwriting any
previous backup. -/
def create_backup : List FsOp :=
  [.copyToBackup]

/-- Trace of `fix_permissions` (lines 78-81): chmod to `0o644`, then
chown to uid 0, gid 0, in that order. -/
def fix_permissions : List FsOp :=
  [.chmod 0o644, .chown 0 0]

/-! ## Config Writer (write_adguardhome, src/sync.py lines 52-75) -/

/-- Embedding of `write_adguardhome` on the already-parsed target tree,
with the serializer `dump` passed in as the collaborator it is.
Returns the final in-memory tree together with the trace of filesystem
operations the call performs; lookup failures on `["tls"]`,
`["certificate_chain"]` or `["private_key"]` (lines 56-57) abort the
run.  Mutating `adguardhome_config["tls"]` in place is embedded as
rebuilding the tree with the "tls" entry replaced by the updated
sub-mapping. -/
def write_adguardhome (adguardhome_config : Yaml) (cert key : String)
    (dump : Yaml → String) : Except PyErr (Yaml × List FsOp) :=
  match adguardhome_config.lookup "tls" with
  | none => .error .lookupError
  | some tls =>
    match tls.lookup "certificate_chain" with
    | none => .error .lookupError
    | some old_cert =>
      match tls.lookup "private_key" with
      | none => .error .lookupError
      | some old_key =>
        let certChanged :=
          pyTruthy (has_changed old_cert (Yaml.str cert) "Certificate chain")
        let tls1 :=
          if certChanged then tls.setKey "certificate_chain" (Yaml.str cert)
          else tls
        let keyChanged :=
          pyTruthy (has_changed old_key (Yaml.str key) "Private key")
        let tls2 :=
          if keyChanged then tls1.setKey "private_key" (Yaml.str key)
          else tls1
        let is_dirty := certChanged || keyChanged
        let config2 := adguardhome_config.setKey "tls" tls2
        .ok
          (config2,
            if is_dirty then
              create_backup ++
                [.truncateTarget, .writeTarget (dump config2)] ++
                fix_permissions
            else [])

/-! ## Orchestrator (run, src/sync.py lines 93-98) -/

/-- Embedding of `run`: extract the credential from the parsed source
store, then write the target.  File reading and document parsing are
collaborator steps; their results (the parsed certificate list and
parsed target tree) are the inputs. -/
def run (certificates : List CertRecord) (domain_name : String)
    (adguardhome_config : Yaml) (dump : Yaml → String) :
    Except PyErr (Yaml × List FsOp) :=
  match read_traefik certificates domain_name with
  | .error e => .error e
  | .ok (cert, key) => write_adguardhome adguardhome_config cert key dump

/-! ## Library lemmas about the embedded operations -/

namespace Yaml

/-- After `m[k] = v`, reading `m[k]` yields `v`, provided the key was
already present (which is how the writer uses assignment). -/
theorem lookup_setKey_self {m : Yaml} {k : String} {w : Yaml} (v : Yaml)
    (hk : m.lookup k = some w) : (m.setKey k v).lookup k = some v := by
  induction m with
  | mapCons k1 v1 tl ihv ihtl =>
    by_cases h : k1 = k
    · simp [setKey, lookup, h]
    · simp only [lookup, if_neg h] at hk
      simp [setKey, lookup, if_neg h, ihtl hk]
  | _ => simp [lookup] at hk

/-- Assignment to one key leaves every other key unchanged. -/
theorem lookup_setKey_other (m : Yaml) {k k2 : String} (v : Yaml)
    (hne : k ≠ k2) : (m.setKey k2 v).lookup k = m.lookup k := by
  induction m with
  | mapNil => simp [setKey, lookup, Ne.symm hne]
  | mapCons k1 v1 tl ihv ihtl =>
    by_cases h : k1 = k2
    · subst h
      simp [setKey, lookup, Ne.symm hne]
    · simp only [setKey, if_neg h]
      by_cases h1 : k1 = k
      · simp [lookup, h1]
      · simp [lookup, if_neg h1, ihtl]
  | _ => rfl

/-- Writing back the value a key already holds is the identity. -/
theorem setKey_lookup_id {m : Yaml} {k : String} {w : Yaml}
    (hk : m.lookup k = some w) : m.setKey k w = m := by
  induction m with
  | mapCons k1 v1 tl ihv ihtl =>
    by_cases h : k1 = k
    · subst h
      simp only [lookup, if_pos rfl] at hk
      injection hk with hh
      subst hh
      simp [setKey]
    · simp only [lookup, if_neg h] at hk
      simp [setKey, if_neg h, ihtl hk]
  | _ => simp [lookup] at hk

end Yaml

/-- The change detector is truthy exactly when the values differ. -/
theorem pyTruthy_has_changed {α : Type} [DecidableEq α]
    (old new : α) (item : String) :
    pyTruthy (has_changed old new item) = true ↔ old ≠ new := by
  by_cases h : old = new <;> simp [has_changed, pyTruthy, h]

/-- `find?` returns the element at the first index satisfying the
predicate, regardless of later matches. -/
theorem find?_eq_of_first {α : Type} (p : α → Bool) (l : List α)
    (i : Nat) (r : α) (hr : l.get? i = some r) (hp : p r = true)
    (hmin : ∀ j r2, j < i → l.get? j = some r2 → p r2 = false) :
    l.find? p = some r := by
  induction l generalizing i with
  | nil => simp at hr
  | cons a t ih =>
    cases i with
    | zero =>
      simp only [List.get?] at hr
      injection hr with hr
      subst hr
      simp [List.find?, hp]
    | succ j =>
      have ha : p a = false := hmin 0 a (Nat.succ_pos j) rfl
      rw [List.find?, ha]
      exact ih j hr
        (fun j2 r2 hj2 hr2 => hmin (j2 + 1) r2 (Nat.succ_lt_succ hj2) hr2)

/-- Inversion of a successful `write_adguardhome` call: the three
lookups succeeded, the returned tree is the input with the tls
sub-mapping replaced by its updated form, and the operation trace is
empty exactly when neither field changed, and otherwise is the
backup-truncate-write-chmod-chown sequence. -/
theorem write_adguardhome_inv {adguardhome_config : Yaml} {cert key : String}
    {dump : Yaml → String} {config2 : Yaml} {ops : List FsOp}
    (h : write_adguardhome adguardhome_config cert key dump =
      .ok (config2, ops)) :
    ∃ tls old_cert old_key,
      adguardhome_config.lookup "tls" = some tls ∧
      tls.lookup "certificate_chain" = some old_cert ∧
      tls.lookup "private_key" = some old_key ∧
      config2 = adguardhome_config.setKey "tls"
        (if old_key = Yaml.str key then
            (if old_cert = Yaml.str cert then tls
             else tls.setKey "certificate_chain" (Yaml.str cert))
          else
            (if old_cert = Yaml.str cert then tls
             else tls.setKey "certificate_chain" (Yaml.str cert)).setKey
              "private_key" (Yaml.str key)) ∧
      ops = (if old_cert = Yaml.str cert ∧ old_key = Yaml.str key then []
             else [FsOp.copyToBackup, FsOp.truncateTarget,
                   FsOp.writeTarget (dump config2), FsOp.chmod 0o644,
                   FsOp.chown 0 0]) := by
  cases htls : adguardhome_config.lookup "tls" with
  | none => simp [write_adguardhome, htls] at h
  | some tls =>
  cases hoc : tls.lookup "certificate_chain" with
  | none => simp [write_adguardhome, htls, hoc] at h
  | some old_cert =>
  cases hok2 : tls.lookup "private_key" with
  | none => simp [write_adguardhome, htls, hoc, hok2] at h
  | some old_key =>
  simp only [write_adguardhome, htls, hoc, hok2, create_backup,
    fix_permissions, List.cons_append, List.nil_append, List.append_assoc,
    Except.ok.injEq, Prod.mk.injEq] at h
  obtain ⟨h4, h5⟩ := h
  subst h4
  subst h5
  refine ⟨tls, old_cert, old_key, rfl, hoc, hok2, ?_, ?_⟩ <;>
    by_cases hc : old_cert = Yaml.str cert <;>
    by_cases hk2 : old_key = Yaml.str key <;>
    simp [has_changed, pyTruthy, hc, hk2]

/-- Operations other than the backup copy do not touch the backup
file: every state reached by a trace free of `copyToBackup` carries
the initial backup. -/
theorem runOps_backup_const {fail : FsOp → Bool} (fs : FS) (ops : List FsOp)
    (hops : ∀ op ∈ ops, op ≠ FsOp.copyToBackup) :
    ∀ s ∈ (runOps fail fs ops).1, s.backup = fs.backup := by
  induction ops generalizing fs with
  | nil => simp [runOps]
  | cons op rest ih =>
    intro s hs
    by_cases hf : fail op
    · simp [runOps, hf] at hs
    · simp only [runOps, if_neg hf, List.mem_cons] at hs
      have hbk : (applyOp fs op).backup = fs.backup := by
        have hop : op ≠ FsOp.copyToBackup := hops op (by simp)
        cases op <;> simp [applyOp] at hop ⊢
      rcases hs with rfl | hs
      · exact hbk
      · rw [ih (applyOp fs op)
          (fun o ho => hops o (List.mem_cons_of_mem _ ho)) s hs, hbk]

/-- When the stored fields already equal the extracted strings, the
writer performs no filesystem operation and returns the tree
unchanged. -/
theorem write_adguardhome_noop {adguardhome_config tls : Yaml}
    {cert key : String} (dump : Yaml → String)
    (h1 : adguardhome_config.lookup "tls" = some tls)
    (h2 : tls.lookup "certificate_chain" = some (Yaml.str cert))
    (h3 : tls.lookup "private_key" = some (Yaml.str key)) :
    write_adguardhome adguardhome_config cert key dump =
      .ok (adguardhome_config, []) := by
  simp [write_adguardhome, h1, h2, h3, has_changed, pyTruthy,
    Yaml.setKey_lookup_id h1]

/-- Rerunning the writer on the tree a successful call produced
performs no filesystem operation: the updated tree already stores the
extracted certificate and key. -/
theorem write_adguardhome_idem {adguardhome_config config2 : Yaml}
    {cert key : String} {dump : Yaml → String} {ops : List FsOp}
    (h : write_adguardhome adguardhome_config cert key dump =
      .ok (config2, ops)) :
    write_adguardhome config2 cert key dump = .ok (config2, []) := by
  obtain ⟨tls, oc, okv, h1, h2, h3, h4, h5⟩ := write_adguardhome_inv h
  set tls1 := (if oc = Yaml.str cert then tls
    else tls.setKey "certificate_chain" (Yaml.str cert)) with htls1
  set tls2 := (if okv = Yaml.str key then tls1
    else tls1.setKey "private_key" (Yaml.str key)) with htls2
  have hl1cc : tls1.lookup "certificate_chain" = some (Yaml.str cert) := by
    by_cases hc : oc = Yaml.str cert
    · rw [htls1, if_pos hc, h2, hc]
    · rw [htls1, if_neg hc]
      exact Yaml.lookup_setKey_self _ h2
  have hl1pk : tls1.lookup "private_key" = some okv := by
    by_cases hc : oc = Yaml.str cert
    · rw [htls1, if_pos hc]
      exact h3
    · rw [htls1, if_neg hc, Yaml.lookup_setKey_other _ _ (by decide)]
      exact h3
  have hl2cc : tls2.lookup "certificate_chain" = some (Yaml.str cert) := by
    by_cases hk2 : okv = Yaml.str key
    · rw [htls2, if_pos hk2]
      exact hl1cc
    · rw [htls2, if_neg hk2, Yaml.lookup_setKey_other _ _ (by decide)]
      exact hl1cc
  have hl2pk : tls2.lookup "private_key" = some (Yaml.str key) := by
    by_cases hk2 : okv = Yaml.str key
    · rw [htls2, if_pos hk2, hl1pk, hk2]
    · rw [htls2, if_neg hk2]
      exact Yaml.lookup_setKey_self _ hl1pk
  have hcfg2 : config2.lookup "tls" = some tls2 := by
    rw [h4]
    exact Yaml.lookup_setKey_self _ h1
  exact write_adguardhome_noop dump hcfg2 hl2cc hl2pk

/-- A successful trace ran with no refused operation. -/
theorem runOps_succ_no_fail {fail : FsOp → Bool} {fs : FS} {ops : List FsOp}
    (h : (runOps fail fs ops).2 = true) : ∀ op ∈ ops, fail op = false := by
  induction ops generalizing fs with
  | nil => simp
  | cons op rest ih =>
    by_cases hf : fail op
    · simp [runOps, hf] at h
    · simp only [runOps, if_neg hf] at h
      intro o ho
      rcases List.mem_cons.1 ho with rfl | ho
      · exact Bool.not_eq_true _ ▸ by simpa using hf
      · exact ih h o ho

/-! ## Claim theorems -/

/-- Claim C2 (code bug): on a store with zero records and an absent or
blank selector, extraction does NOT fail with the diagnosed
`sys.exit("Could not find any certificate in acme.json")` the spec
describes as `NotFoundError`: line 26 of src/sync.py indexes `[0]`
into the empty list and raises an uncaught IndexError before the
emptiness check on line 27 can run, so the diagnosed exit on line 28 is
dead code for the empty store. -/
theorem c2_empty_store_blank_selector_uncaught_index_error :
    read_traefik [] "" = .error .indexError ∧
    read_traefik [] " " = .error .indexError ∧
    ∀ msg : String, read_traefik [] "" ≠ .error (.systemExit msg) := by
  refine ⟨rfl, by decide, ?_⟩
  intro msg hmsg
  rw [show read_traefik [] "" = .error .indexError from rfl] at hmsg
  simp at hmsg

/-- Claim C5 (confirmed): `has_changed old new label` returns Python
`True` exactly when `old != new` under exact string equality with no
normalization; a single trailing-newline difference registers as
changed, and equal values fall through to the non-true `None`. -/
theorem c5_has_changed_exact_string_inequality :
    (∀ old new item : String,
      has_changed old new item = some true ↔ old ≠ new) ∧
    (∀ old item : String, has_changed old old item = none) ∧
    has_changed "X" "X\n" "Certificate chain" = some true ∧
    has_changed "X" "X" "Certificate chain" ≠ some true := by
  refine ⟨?_, ?_, by decide, by decide⟩
  · intro old new item
    by_cases h : old = new <;> simp [has_changed, h]
  · intro old item
    simp [has_changed]

/-- Claim C3 (confirmed): with a present, non-blank selector,
extraction selects the first record whose domain field equals the
selector exactly, regardless of its position, and when no record
matches it fails with the diagnosed exit naming the selector. -/
theorem c3_selector_selects_first_exact_match
    (certificates : List CertRecord) (domain_name : String)
    (hne : domain_name ≠ "") (hsp : pyIsSpace domain_name = false) :
    (∀ i r, certificates.get? i = some r → r.domainMain = domain_name →
      (∀ j r2, j < i → certificates.get? j = some r2 →
        r2.domainMain ≠ domain_name) →
      read_traefik certificates domain_name = decodeRecord r) ∧
    ((∀ r ∈ certificates, r.domainMain ≠ domain_name) →
      read_traefik certificates domain_name =
        .error (.systemExit
          ("Could not find any certificate for domain " ++ domain_name))) := by
  have hblank : blankSelector domain_name = false := by
    simp [blankSelector, hne, hsp]
  constructor
  · intro i r hr hp hmin
    have hfind := find?_eq_of_first
      (fun d => d.domainMain = domain_name) certificates i r hr
      (by simp only [decide_eq_true_eq]; exact hp)
      (fun j r2 hj hr2 => by
        simp only [decide_eq_false_iff_not]
        exact hmin j r2 hj hr2)
    simp [read_traefik, hblank, hfind]
  · intro hnone
    have hfind :
        certificates.find? (fun d => d.domainMain = domain_name) = none := by
      rw [List.find?_eq_none]
      intro x hx
      simp [hnone x hx]
    simp [read_traefik, hblank, hfind]

/-- Witness for C3: on a two-record store the selector picks the
second record, and an unmatched selector yields the diagnosed exit. -/
theorem c3_selector_selects_first_exact_match_witness :
    read_traefik
        [⟨"a.example", "QUFB", "QkJC"⟩, ⟨"b.example", "Q0VSVEI=", "S0VZQg=="⟩]
        "b.example" =
      decodeRecord ⟨"b.example", "Q0VSVEI=", "S0VZQg=="⟩ ∧
    read_traefik [⟨"a.example", "QUFB", "QkJC"⟩] "c.example" =
      .error (.systemExit
        "Could not find any certificate for domain c.example") := by
  constructor
  · exact (c3_selector_selects_first_exact_match
      [⟨"a.example", "QUFB", "QkJC"⟩, ⟨"b.example", "Q0VSVEI=", "S0VZQg=="⟩]
      "b.example" (by decide) (by decide)).1 1
      ⟨"b.example", "Q0VSVEI=", "S0VZQg=="⟩ rfl (by decide)
      (by
        intro j r2 hj hr2
        interval_cases j
        simp only [List.get?] at hr2
        injection hr2 with hr2
        subst hr2
        decide)
  · exact (c3_selector_selects_first_exact_match
      [⟨"a.example", "QUFB", "QkJC"⟩] "c.example" (by decide) (by decide)).2
      (by decide)

/-- Claim C4 (confirmed): with at least one record and an absent or
blank selector, extraction takes the first record in stored order and
decodes both payload fields from base64 into UTF-8 text. -/
theorem c4_blank_selector_first_record_decoded
    (r : CertRecord) (rest : List CertRecord) (domain_name : String)
    (hblank : domain_name = "" ∨ pyIsSpace domain_name = true) :
    read_traefik (r :: rest) domain_name = decodeRecord r ∧
    (∀ cert private_key : String,
      b64DecodeUtf8 r.certificate = .ok cert →
      b64DecodeUtf8 r.key = .ok private_key →
      read_traefik (r :: rest) domain_name = .ok (cert, private_key)) := by
  have hb : blankSelector domain_name = true := by
    rcases hblank with h | h <;> simp [blankSelector, h]
  constructor
  · simp [read_traefik, hb]
  · intro cert pk h1 h2
    simp [read_traefik, hb, decodeRecord, h1, h2]

/-- Witness for C4: a concrete one-record store with no selector
decodes to the plaintext credential. -/
theorem c4_blank_selector_first_record_decoded_witness :
    read_traefik [⟨"a.example", "Q0VSVEE=", "S0VZQQ=="⟩] "" =
      .ok ("CERTA", "KEYA") :=
  (c4_blank_selector_first_record_decoded
    ⟨"a.example", "Q0VSVEE=", "S0VZQQ=="⟩ [] "" (Or.inl rfl)).2
    "CERTA" "KEYA" (by decide) (by decide)

/-- Claim C6 (confirmed): when the extracted certificate and key equal
the stored certificate chain and private key, the run performs zero
filesystem operations (no backup, no write) and succeeds; consequently
running the full sequence again on the tree a successful run produced
performs zero target writes and succeeds. -/
theorem c6_steady_state_zero_writes_and_idempotence
    (adguardhome_config : Yaml) (cert key : String) (dump : Yaml → String) :
    (∀ tls, adguardhome_config.lookup "tls" = some tls →
      tls.lookup "certificate_chain" = some (Yaml.str cert) →
      tls.lookup "private_key" = some (Yaml.str key) →
      write_adguardhome adguardhome_config cert key dump =
        .ok (adguardhome_config, [])) ∧
    (∀ certificates domain_name config2 ops,
      run certificates domain_name adguardhome_config dump =
        .ok (config2, ops) →
      run certificates domain_name config2 dump = .ok (config2, [])) := by
  constructor
  · intro tls h1 h2 h3
    exact write_adguardhome_noop dump h1 h2 h3
  · intro certificates domain_name config2 ops h
    unfold run at h ⊢
    cases hrt : read_traefik certificates domain_name with
    | error e => rw [hrt] at h; exact absurd h (by simp)
    | ok p =>
      obtain ⟨cert2, key2⟩ := p
      rw [hrt] at h
      exact write_adguardhome_idem h

/-- Witness for C6: a concrete steady-state tree yields no operations,
and a second concrete run after a dirty first run yields none. -/
theorem c6_steady_state_zero_writes_and_idempotence_witness :
    write_adguardhome
        (Yaml.mapCons "tls"
          (Yaml.mapCons "certificate_chain" (Yaml.str "CERTA")
            (Yaml.mapCons "private_key" (Yaml.str "KEYA") Yaml.mapNil))
          Yaml.mapNil) "CERTA" "KEYA" (fun _ => "DOC") =
      .ok
        (Yaml.mapCons "tls"
          (Yaml.mapCons "certificate_chain" (Yaml.str "CERTA")
            (Yaml.mapCons "private_key" (Yaml.str "KEYA") Yaml.mapNil))
          Yaml.mapNil, []) ∧
    run [⟨"a.example", "Q0VSVEE=", "S0VZQQ=="⟩] ""
        (Yaml.mapCons "tls"
          (Yaml.mapCons "certificate_chain" (Yaml.str "CERTA")
            (Yaml.mapCons "private_key" (Yaml.str "KEYA") Yaml.mapNil))
          Yaml.mapNil) (fun _ => "DOC") =
      .ok
        (Yaml.mapCons "tls"
          (Yaml.mapCons "certificate_chain" (Yaml.str "CERTA")
            (Yaml.mapCons "private_key" (Yaml.str "KEYA") Yaml.mapNil))
          Yaml.mapNil, []) := by
  constructor
  · exact (c6_steady_state_zero_writes_and_idempotence _ "CERTA" "KEYA"
      (fun _ => "DOC")).1
      (Yaml.mapCons "certificate_chain" (Yaml.str "CERTA")
        (Yaml.mapCons "private_key" (Yaml.str "KEYA") Yaml.mapNil))
      rfl rfl rfl
  · exact (c6_steady_state_zero_writes_and_idempotence
      (Yaml.mapCons "tls"
        (Yaml.mapCons "certificate_chain" (Yaml.str "OLD")
          (Yaml.mapCons "private_key" (Yaml.str "OLDKEY") Yaml.mapNil))
        Yaml.mapNil) "CERTA" "KEYA" (fun _ => "DOC")).2
      [⟨"a.example", "Q0VSVEE=", "S0VZQQ=="⟩] ""
      (Yaml.mapCons "tls"
        (Yaml.mapCons "certificate_chain" (Yaml.str "CERTA")
          (Yaml.mapCons "private_key" (Yaml.str "KEYA") Yaml.mapNil))
        Yaml.mapNil)
      [FsOp.copyToBackup, FsOp.truncateTarget, FsOp.writeTarget "DOC",
        FsOp.chmod 0o644, FsOp.chown 0 0] (by decide)

/-- Claim C1 (confirmed): under any pattern of operation failures,
every intermediate filesystem state of a run whose target content
differs from the pre-run content already carries a backup holding the
pre-run content — the backup copy strictly precedes any mutation of
the target. -/
theorem c1_backup_precedes_target_mutation
    (certificates : List CertRecord) (domain_name : String)
    (adguardhome_config config2 : Yaml) (dump : Yaml → String)
    (ops : List FsOp) (fail : FsOp → Bool) (fs0 : FS)
    (h : run certificates domain_name adguardhome_config dump =
      .ok (config2, ops)) :
    ∀ s ∈ (runOps fail fs0 ops).1,
      s.target ≠ fs0.target → s.backup = some fs0.target := by
  unfold run at h
  cases hrt : read_traefik certificates domain_name with
  | error e => rw [hrt] at h; exact absurd h (by simp)
  | ok p =>
    obtain ⟨cert, key⟩ := p
    rw [hrt] at h
    obtain ⟨tls, oc, okv, h1, h2, h3, h4, h5⟩ := write_adguardhome_inv h
    intro s hs hne2
    by_cases hd : oc = Yaml.str cert ∧ okv = Yaml.str key
    · rw [if_pos hd] at h5
      rw [h5] at hs
      simp [runOps] at hs
    · rw [if_neg hd] at h5
      rw [h5] at hs
      by_cases f1 : fail FsOp.copyToBackup
      · simp [runOps, f1] at hs
      · simp only [runOps, if_neg f1, Bool.false_eq_true, if_false] at hs
        rcases List.mem_cons.1 hs with rfl | hs
        · simp [applyOp]
        · have hbk := runOps_backup_const (applyOp fs0 FsOp.copyToBackup)
            [FsOp.truncateTarget, FsOp.writeTarget (dump config2),
              FsOp.chmod 0o644, FsOp.chown 0 0]
            (by
              intro op hop
              rcases List.mem_cons.1 hop with rfl | hop
              · simp
              rcases List.mem_cons.1 hop with rfl | hop
              · simp
              rcases List.mem_cons.1 hop with rfl | hop
              · simp
              rcases List.mem_cons.1 hop with rfl | hop
              · simp
              · simp at hop)
            s hs
          rw [hbk]
          simp [applyOp]

/-- Witness for C1: in a concrete dirty run executed without
failures, the post-truncation state (target content empty, different
from the pre-run content) already carries the pre-run backup. -/
theorem c1_backup_precedes_target_mutation_witness :
    (FS.mk "" 384 1 1 (some "OLDDOC")).backup = some "OLDDOC" :=
  c1_backup_precedes_target_mutation
    [⟨"a.example", "Q0VSVEE=", "S0VZQQ=="⟩] ""
    (Yaml.mapCons "tls"
      (Yaml.mapCons "certificate_chain" (Yaml.str "OLD")
        (Yaml.mapCons "private_key" (Yaml.str "OLDKEY") Yaml.mapNil))
      Yaml.mapNil)
    (Yaml.mapCons "tls"
      (Yaml.mapCons "certificate_chain" (Yaml.str "CERTA")
        (Yaml.mapCons "private_key" (Yaml.str "KEYA") Yaml.mapNil))
      Yaml.mapNil)
    (fun _ => "NEWDOC")
    [FsOp.copyToBackup, FsOp.truncateTarget, FsOp.writeTarget "NEWDOC",
      FsOp.chmod 0o644, FsOp.chown 0 0]
    (fun _ => false) (FS.mk "OLDDOC" 384 1 1 none)
    (by decide) (FS.mk "" 384 1 1 (some "OLDDOC")) (by decide) (by decide)

/-- Claim C7 (confirmed): a successful writer call sets the tls
certificate-chain and private-key entries for exactly the fields the
change detector found changed, and preserves the value of every other
key of the tree: all top-level keys other than "tls", and all tls keys
other than the two certificate fields; an unchanged field keeps its
old value. -/
theorem c7_write_updates_exactly_changed_fields
    (adguardhome_config config2 : Yaml) (cert key : String)
    (dump : Yaml → String) (ops : List FsOp)
    (h : write_adguardhome adguardhome_config cert key dump =
      .ok (config2, ops)) :
    ∃ tls tls2 old_cert old_key,
      adguardhome_config.lookup "tls" = some tls ∧
      tls.lookup "certificate_chain" = some old_cert ∧
      tls.lookup "private_key" = some old_key ∧
      config2.lookup "tls" = some tls2 ∧
      (∀ k, k ≠ "tls" → config2.lookup k = adguardhome_config.lookup k) ∧
      (∀ k, k ≠ "certificate_chain" → k ≠ "private_key" →
        tls2.lookup k = tls.lookup k) ∧
      (old_cert ≠ Yaml.str cert →
        tls2.lookup "certificate_chain" = some (Yaml.str cert)) ∧
      (old_cert = Yaml.str cert →
        tls2.lookup "certificate_chain" = some old_cert) ∧
      (old_key ≠ Yaml.str key →
        tls2.lookup "private_key" = some (Yaml.str key)) ∧
      (old_key = Yaml.str key →
        tls2.lookup "private_key" = some old_key) := by
  obtain ⟨tls, oc, okv, h1, h2, h3, h4, h5⟩ := write_adguardhome_inv h
  set tls1 := (if oc = Yaml.str cert then tls
    else tls.setKey "certificate_chain" (Yaml.str cert)) with htls1
  set tls2 := (if okv = Yaml.str key then tls1
    else tls1.setKey "private_key" (Yaml.str key)) with htls2
  have hl1pk : tls1.lookup "private_key" = some okv := by
    by_cases hc : oc = Yaml.str cert
    · rw [htls1, if_pos hc]
      exact h3
    · rw [htls1, if_neg hc, Yaml.lookup_setKey_other _ _ (by decide)]
      exact h3
  refine ⟨tls, tls2, oc, okv, h1, h2, h3, ?_, ?_, ?_, ?_, ?_, ?_, ?_⟩
  · rw [h4]
    exact Yaml.lookup_setKey_self _ h1
  · intro k hk
    rw [h4]
    exact Yaml.lookup_setKey_other _ _ hk
  · intro k hkc hkp
    have e1 : tls1.lookup k = tls.lookup k := by
      by_cases hc : oc = Yaml.str cert
      · rw [htls1, if_pos hc]
      · rw [htls1, if_neg hc]
        exact Yaml.lookup_setKey_other _ _ hkc
    by_cases hk2 : okv = Yaml.str key
    · rw [htls2, if_pos hk2]
      exact e1
    · rw [htls2, if_neg hk2, Yaml.lookup_setKey_other _ _ hkp]
      exact e1
  · intro hcne
    have e1 : tls1.lookup "certificate_chain" = some (Yaml.str cert) := by
      rw [htls1, if_neg hcne]
      exact Yaml.lookup_setKey_self _ h2
    by_cases hk2 : okv = Yaml.str key
    · rw [htls2, if_pos hk2]
      exact e1
    · rw [htls2, if_neg hk2, Yaml.lookup_setKey_other _ _ (by decide)]
      exact e1
  · intro hceq
    have e1 : tls1.lookup "certificate_chain" = some oc := by
      rw [htls1, if_pos hceq, hceq]
      rw [hceq] at h2
      exact h2
    by_cases hk2 : okv = Yaml.str key
    · rw [htls2, if_pos hk2]
      exact e1
    · rw [htls2, if_neg hk2, Yaml.lookup_setKey_other _ _ (by decide)]
      exact e1
  · intro hkne
    rw [htls2, if_neg hkne]
    exact Yaml.lookup_setKey_self _ hl1pk
  · intro hkeq
    rw [htls2, if_pos hkeq]
    exact hl1pk

/-- Witness for C7: in a concrete write that changes only the
certificate, an unrelated top-level field keeps its value. -/
theorem c7_write_updates_exactly_changed_fields_witness :
    (Yaml.mapCons "tls"
      (Yaml.mapCons "certificate_chain" (Yaml.str "CERTA")
        (Yaml.mapCons "enabled" (Yaml.bool true)
          (Yaml.mapCons "private_key" (Yaml.str "KEYA") Yaml.mapNil)))
      (Yaml.mapCons "bind_port" (Yaml.int 80) Yaml.mapNil)).lookup
      "bind_port" = some (Yaml.int 80) := by
  obtain ⟨tls, tls2, oc, okv, h1, h2, h3, h4, h5, h6, h7, h8, h9, h10⟩ :=
    c7_write_updates_exactly_changed_fields
      (Yaml.mapCons "tls"
        (Yaml.mapCons "certificate_chain" (Yaml.str "OLD")
          (Yaml.mapCons "enabled" (Yaml.bool true)
            (Yaml.mapCons "private_key" (Yaml.str "KEYA") Yaml.mapNil)))
        (Yaml.mapCons "bind_port" (Yaml.int 80) Yaml.mapNil))
      (Yaml.mapCons "tls"
        (Yaml.mapCons "certificate_chain" (Yaml.str "CERTA")
          (Yaml.mapCons "enabled" (Yaml.bool true)
            (Yaml.mapCons "private_key" (Yaml.str "KEYA") Yaml.mapNil)))
        (Yaml.mapCons "bind_port" (Yaml.int 80) Yaml.mapNil))
      "CERTA" "KEYA" (fun _ => "NEWDOC")
      [FsOp.copyToBackup, FsOp.truncateTarget, FsOp.writeTarget "NEWDOC",
        FsOp.chmod 0o644, FsOp.chown 0 0] (by decide)
  rw [h5 "bind_port" (by decide)]
  decide

/-- Counterexample to claim C8 as stated: in a concrete dirty run,
immediately after `open(path, "w")` truncates the target (and before
`yaml.dump` streams the new serialization into it) the on-disk content
is empty — neither the full old document nor the full new one.  The
serialization is written through the open file object, not assembled
in memory before the file is opened. -/
theorem c8_counterexample_truncated_intermediate_state :
    write_adguardhome
        (Yaml.mapCons "tls"
          (Yaml.mapCons "certificate_chain" (Yaml.str "OLD")
            (Yaml.mapCons "private_key" (Yaml.str "OLDKEY") Yaml.mapNil))
          Yaml.mapNil)
        "CERTA" "KEYA" (fun _ => "NEWDOC") =
      .ok
        (Yaml.mapCons "tls"
          (Yaml.mapCons "certificate_chain" (Yaml.str "CERTA")
            (Yaml.mapCons "private_key" (Yaml.str "KEYA") Yaml.mapNil))
          Yaml.mapNil,
          [FsOp.copyToBackup, FsOp.truncateTarget, FsOp.writeTarget "NEWDOC",
            FsOp.chmod 0o644, FsOp.chown 0 0]) ∧
    FS.mk "" 420 0 0 (some "OLDDOC") ∈
      (runOps (fun _ => false) (FS.mk "OLDDOC" 420 0 0 none)
        [FsOp.copyToBackup, FsOp.truncateTarget, FsOp.writeTarget "NEWDOC",
          FsOp.chmod 0o644, FsOp.chown 0 0]).1 ∧
    ("" : String) ≠ "OLDDOC" ∧ ("" : String) ≠ "NEWDOC" := by
  decide

/-- Claim C8 (amended): during a run the target content is, at every
moment, the full old document, the full new document, or the
truncated intermediate of the write step — in which case a backup of
the full old document already exists — and a run in which every
operation succeeds leaves the full new document. -/
theorem c8_amended_target_old_new_or_truncated
    (certificates : List CertRecord) (domain_name : String)
    (adguardhome_config config2 : Yaml) (dump : Yaml → String)
    (ops : List FsOp) (fail : FsOp → Bool) (fs0 : FS)
    (h : run certificates domain_name adguardhome_config dump =
      .ok (config2, ops)) :
    (∀ s ∈ (runOps fail fs0 ops).1,
      s.target = fs0.target ∨ s.target = dump config2 ∨
        (s.target = "" ∧ s.backup = some fs0.target)) ∧
    ((runOps fail fs0 ops).2 = true → ops ≠ [] →
      ((runOps fail fs0 ops).1.getLastD fs0).target = dump config2) := by
  unfold run at h
  cases hrt : read_traefik certificates domain_name with
  | error e => rw [hrt] at h; exact absurd h (by simp)
  | ok p =>
  obtain ⟨cert, key⟩ := p
  rw [hrt] at h
  obtain ⟨tls, oc, okv, h1, h2, h3, h4, h5⟩ := write_adguardhome_inv h
  by_cases hd : oc = Yaml.str cert ∧ okv = Yaml.str key
  · rw [if_pos hd] at h5
    subst h5
    constructor
    · intro s hs
      simp [runOps] at hs
    · intro _ hne
      exact absurd rfl hne
  · rw [if_neg hd] at h5
    subst h5
    constructor
    · intro s hs
      by_cases f1 : fail FsOp.copyToBackup
      · simp [runOps, f1] at hs
      · by_cases f2 : fail FsOp.truncateTarget
        · simp [runOps, applyOp, f1, f2] at hs
          subst hs
          simp [applyOp]
        · by_cases f3 : fail (FsOp.writeTarget (dump config2))
          · simp [runOps, applyOp, f1, f2, f3] at hs
            rcases hs with rfl | rfl <;> simp [applyOp]
          · by_cases f4 : fail (FsOp.chmod 0o644)
            · simp [runOps, applyOp, f1, f2, f3, f4] at hs
              rcases hs with rfl | rfl | rfl <;> simp [applyOp]
            · by_cases f5 : fail (FsOp.chown 0 0)
              · simp [runOps, applyOp, f1, f2, f3, f4, f5] at hs
                rcases hs with rfl | rfl | rfl | rfl <;> simp [applyOp]
              · simp [runOps, applyOp, f1, f2, f3, f4, f5] at hs
                rcases hs with rfl | rfl | rfl | rfl | rfl <;> simp [applyOp]
    · intro hsucc _
      have hf := runOps_succ_no_fail hsucc
      have f1 := hf FsOp.copyToBackup (by simp)
      have f2 := hf FsOp.truncateTarget (by simp)
      have f3 := hf (FsOp.writeTarget (dump config2)) (by simp)
      have f4 := hf (FsOp.chmod 0o644) (by simp)
      have f5 := hf (FsOp.chown 0 0) (by simp)
      simp [runOps, applyOp, f1, f2, f3, f4, f5, List.getLastD]

/-- Witness for the amended C8: in a concrete failure-free dirty run
the final target content is the full new document. -/
theorem c8_amended_target_old_new_or_truncated_witness :
    ((runOps (fun _ => false) (FS.mk "OLDDOC" 420 0 0 none)
        [FsOp.copyToBackup, FsOp.truncateTarget, FsOp.writeTarget "NEWDOC",
          FsOp.chmod 0o644, FsOp.chown 0 0]).1.getLastD
      (FS.mk "OLDDOC" 420 0 0 none)).target = "NEWDOC" :=
  (c8_amended_target_old_new_or_truncated
    [⟨"a.example", "Q0VSVEE=", "S0VZQQ=="⟩] ""
    (Yaml.mapCons "tls"
      (Yaml.mapCons "certificate_chain" (Yaml.str "OLD")
        (Yaml.mapCons "private_key" (Yaml.str "OLDKEY") Yaml.mapNil))
      Yaml.mapNil)
    (Yaml.mapCons "tls"
      (Yaml.mapCons "certificate_chain" (Yaml.str "CERTA")
        (Yaml.mapCons "private_key" (Yaml.str "KEYA") Yaml.mapNil))
      Yaml.mapNil)
    (fun _ => "NEWDOC")
    [FsOp.copyToBackup, FsOp.truncateTarget, FsOp.writeTarget "NEWDOC",
      FsOp.chmod 0o644, FsOp.chown 0 0]
    (fun _ => false) (FS.mk "OLDDOC" 420 0 0 none) (by decide)).2
    (by decide) (by decide)

/-- Claim C9 (confirmed): whenever a content write occurs, the trace
continues with `chmod 0o644` and `chown 0 0`; when neither permission
call is refused the run succeeds with those bits and owner set, and
when the environment refuses a permission call after the content write
went through, the run fails (fatal error) while the written content
persists — it is not rolled back. -/
theorem c9_permissions_forced_after_write_no_rollback
    (adguardhome_config config2 : Yaml) (cert key : String)
    (dump : Yaml → String) (ops : List FsOp) (fail : FsOp → Bool) (fs0 : FS)
    (h : write_adguardhome adguardhome_config cert key dump =
      .ok (config2, ops))
    (hw : ops ≠ [])
    (hcopy : fail FsOp.copyToBackup = false)
    (htrunc : fail FsOp.truncateTarget = false)
    (hwrite : fail (FsOp.writeTarget (dump config2)) = false) :
    ops = [FsOp.copyToBackup, FsOp.truncateTarget,
      FsOp.writeTarget (dump config2), FsOp.chmod 0o644, FsOp.chown 0 0] ∧
    ((runOps fail fs0 ops).1.getLastD fs0).target = dump config2 ∧
    (fail (FsOp.chmod 0o644) = false → fail (FsOp.chown 0 0) = false →
      (runOps fail fs0 ops).2 = true ∧
      ((runOps fail fs0 ops).1.getLastD fs0).mode = 0o644 ∧
      ((runOps fail fs0 ops).1.getLastD fs0).uid = 0 ∧
      ((runOps fail fs0 ops).1.getLastD fs0).gid = 0) ∧
    (fail (FsOp.chmod 0o644) = true ∨ fail (FsOp.chown 0 0) = true →
      (runOps fail fs0 ops).2 = false) := by
  obtain ⟨tls, oc, okv, h1, h2, h3, h4, h5⟩ := write_adguardhome_inv h
  by_cases hd : oc = Yaml.str cert ∧ okv = Yaml.str key
  · rw [if_pos hd] at h5
    exact absurd h5 hw
  · rw [if_neg hd] at h5
    subst h5
    refine ⟨rfl, ?_, ?_, ?_⟩ <;>
      by_cases f4 : fail (FsOp.chmod 0o644) <;>
      by_cases f5 : fail (FsOp.chown 0 0) <;>
      simp [runOps, applyOp, hcopy, htrunc, hwrite, f4, f5, List.getLastD]

/-- Witness for C9: a concrete failure-free dirty run ends with the
new content, mode 0o644 and root ownership. -/
theorem c9_permissions_forced_after_write_no_rollback_witness :
    ((runOps (fun _ => false) (FS.mk "OLDDOC" 384 1 1 none)
        [FsOp.copyToBackup, FsOp.truncateTarget, FsOp.writeTarget "NEWDOC",
          FsOp.chmod 0o644, FsOp.chown 0 0]).1.getLastD
      (FS.mk "OLDDOC" 384 1 1 none)).target = "NEWDOC" ∧
    ((runOps (fun _ => false) (FS.mk "OLDDOC" 384 1 1 none)
        [FsOp.copyToBackup, FsOp.truncateTarget, FsOp.writeTarget "NEWDOC",
          FsOp.chmod 0o644, FsOp.chown 0 0]).1.getLastD
      (FS.mk "OLDDOC" 384 1 1 none)).mode = 0o644 ∧
    ((runOps (fun _ => false) (FS.mk "OLDDOC" 384 1 1 none)
        [FsOp.copyToBackup, FsOp.truncateTarget, FsOp.writeTarget "NEWDOC",
          FsOp.chmod 0o644, FsOp.chown 0 0]).1.getLastD
      (FS.mk "OLDDOC" 384 1 1 none)).uid = 0 ∧
    ((runOps (fun _ => false) (FS.mk "OLDDOC" 384 1 1 none)
        [FsOp.copyToBackup, FsOp.truncateTarget, FsOp.writeTarget "NEWDOC",
          FsOp.chmod 0o644, FsOp.chown 0 0]).1.getLastD
      (FS.mk "OLDDOC" 384 1 1 none)).gid = 0 := by
  have h := c9_permissions_forced_after_write_no_rollback
    (Yaml.mapCons "tls"
      (Yaml.mapCons "certificate_chain" (Yaml.str "OLD")
        (Yaml.mapCons "private_key" (Yaml.str "OLDKEY") Yaml.mapNil))
      Yaml.mapNil)
    (Yaml.mapCons "tls"
      (Yaml.mapCons "certificate_chain" (Yaml.str "CERTA")
        (Yaml.mapCons "private_key" (Yaml.str "KEYA") Yaml.mapNil))
      Yaml.mapNil)
    "CERTA" "KEYA" (fun _ => "NEWDOC")
    [FsOp.copyToBackup, FsOp.truncateTarget, FsOp.writeTarget "NEWDOC",
      FsOp.chmod 0o644, FsOp.chown 0 0]
    (fun _ => false) (FS.mk "OLDDOC" 384 1 1 none)
    (by decide) (by decide) rfl rfl rfl
  exact ⟨h.2.1, (h.2.2.1 rfl rfl).2.1, (h.2.2.1 rfl rfl).2.2.1,
    (h.2.2.1 rfl rfl).2.2.2⟩

/-- Claim C10 (confirmed): permission fixing is not atomic — the
chmod to 0o644 precedes the chown to uid 0, gid 0 in the trace, so
when exactly the chown is refused the run fails with the target
holding the newly written content and mode 0o644, while its owner and
group are unchanged from before the run. -/
theorem c10_chown_failure_leaves_chmod_applied_owner_unchanged
    (adguardhome_config config2 : Yaml) (cert key : String)
    (dump : Yaml → String) (ops : List FsOp) (fs0 : FS)
    (h : write_adguardhome adguardhome_config cert key dump =
      .ok (config2, ops))
    (hw : ops ≠ []) :
    ops = [FsOp.copyToBackup, FsOp.truncateTarget,
      FsOp.writeTarget (dump config2), FsOp.chmod 0o644, FsOp.chown 0 0] ∧
    (runOps (fun op => op = FsOp.chown 0 0) fs0 ops).2 = false ∧
    ((runOps (fun op => op = FsOp.chown 0 0) fs0 ops).1.getLastD
      fs0).target = dump config2 ∧
    ((runOps (fun op => op = FsOp.chown 0 0) fs0 ops).1.getLastD
      fs0).mode = 0o644 ∧
    ((runOps (fun op => op = FsOp.chown 0 0) fs0 ops).1.getLastD
      fs0).uid = fs0.uid ∧
    ((runOps (fun op => op = FsOp.chown 0 0) fs0 ops).1.getLastD
      fs0).gid = fs0.gid := by
  obtain ⟨tls, oc, okv, h1, h2, h3, h4, h5⟩ := write_adguardhome_inv h
  by_cases hd : oc = Yaml.str cert ∧ okv = Yaml.str key
  · rw [if_pos hd] at h5
    exact absurd h5 hw
  · rw [if_neg hd] at h5
    subst h5
    refine ⟨rfl, ?_⟩
    simp [runOps, applyOp, List.getLastD]

/-- Witness for C10: a concrete dirty run in which only the chown is
refused ends failed, with new content, mode 0o644 and the pre-run
owner. -/
theorem c10_chown_failure_leaves_chmod_applied_owner_unchanged_witness :
    (runOps (fun op => op = FsOp.chown 0 0) (FS.mk "OLDDOC" 384 7 9 none)
        [FsOp.copyToBackup, FsOp.truncateTarget, FsOp.writeTarget "NEWDOC",
          FsOp.chmod 0o644, FsOp.chown 0 0]).2 = false ∧
    ((runOps (fun op => op = FsOp.chown 0 0) (FS.mk "OLDDOC" 384 7 9 none)
        [FsOp.copyToBackup, FsOp.truncateTarget, FsOp.writeTarget "NEWDOC",
          FsOp.chmod 0o644, FsOp.chown 0 0]).1.getLastD
      (FS.mk "OLDDOC" 384 7 9 none)).mode = 0o644 ∧
    ((runOps (fun op => op = FsOp.chown 0 0) (FS.mk "OLDDOC" 384 7 9 none)
        [FsOp.copyToBackup, FsOp.truncateTarget, FsOp.writeTarget "NEWDOC",
          FsOp.chmod 0o644, FsOp.chown 0 0]).1.getLastD
      (FS.mk "OLDDOC" 384 7 9 none)).uid = 7 := by
  have h := c10_chown_failure_leaves_chmod_applied_owner_unchanged
    (Yaml.mapCons "tls"
      (Yaml.mapCons "certificate_chain" (Yaml.str "OLD")
        (Yaml.mapCons "private_key" (Yaml.str "OLDKEY") Yaml.mapNil))
      Yaml.mapNil)
    (Yaml.mapCons "tls"
      (Yaml.mapCons "certificate_chain" (Yaml.str "CERTA")
        (Yaml.mapCons "private_key" (Yaml.str "KEYA") Yaml.mapNil))
      Yaml.mapNil)
    "CERTA" "KEYA" (fun _ => "NEWDOC")
    [FsOp.copyToBackup, FsOp.truncateTarget, FsOp.writeTarget "NEWDOC",
      FsOp.chmod 0o644, FsOp.chown 0 0]
    (FS.mk "OLDDOC" 384 7 9 none) (by decide) (by decide)
  exact ⟨h.2.1, h.2.2.2.1, h.2.2.2.2.1⟩

end TraefikAdguardSync
